import Mathlib

/-!
Verification of the `media_fixer` transcoder (`src/mf.py`) against its
design document. The Python program is shallowly embedded: filenames and
paths are `String`s handled with Python's own string/path semantics,
probed streams are `StreamInfo` records, the process-terminating
`exit(0)` inside `detect_bit_depth` is an `Except.error`, and the
stateful finalization/summary code of `main` is modeled as pure
transformations of an explicit filesystem snapshot and job-outcome list.
-/

/-- Python `str.lower()` applied characterwise. -/
def pyLower (s : String) : String := String.mk (s.data.map Char.toLower)

/-- Final component of a path: everything after the last slash. -/
def path_name (p : String) : String :=
  String.mk ((p.data.reverse.takeWhile (fun c => c ≠ '/')).reverse)

/-- Directory part of a path, keeping the trailing slash (empty when the
path has no slash). -/
def dir_part (p : String) : String :=
  String.mk ((p.data.reverse.dropWhile (fun c => c ≠ '/')).reverse)

/-- Python `Path.with_name`: replace the final component. -/
def path_with_name (p n : String) : String := dir_part p ++ n

/-- Python `str.rfind` for a single character: index of the last
occurrence, `-1` when absent. -/
def py_rfind (ch : Char) (l : List Char) : Int :=
  match l.reverse.findIdx? (fun x => x = ch) with
  | none => -1
  | some j => (l.length : Int) - 1 - (j : Int)

/-- Python `Path.suffix`: the extension of the final component, empty for
dotless names, leading-dot names and names ending in a dot. -/
def path_suffix (p : String) : String :=
  let nd := (path_name p).data
  let i := py_rfind '.' nd
  if 0 < i ∧ i < (nd.length : Int) - 1 then String.mk (nd.drop i.toNat) else ""

/-- Python `str.replace(old, new, 1)` on character lists: replace only the
leftmost occurrence of `pat` (an empty `pat` matches at position 0, as in
Python). -/
def replace_first (l pat repl : List Char) : List Char :=
  if pat.isPrefixOf l then repl ++ l.drop pat.length
  else
    match l with
    | [] => []
    | c :: rest => c :: replace_first rest pat repl

/-- Python `str.replace(old, new, 1)` on strings. -/
def py_replace_first (s old new : String) : String :=
  String.mk (replace_first s.data old.data new.data)

/-- One probed stream descriptor as produced by `probe_streams`
(mf.py lines 87-99): index, codec type, codec name and language tag
(`"und"` recorded when the tag is missing). -/
structure StreamInfo where
  index : Nat
  codec_type : String
  codec_name : String
  language : String
deriving DecidableEq, Repr

/-- Outcome of `detect_bit_depth`: either the process terminated via
`exit(code)` or the function returned `(is_10bit, is_12bit, chosen_fmt)`. -/
inductive DetectResult where
  | exited (code : Nat)
  | ok (is_10bit is_12bit : Bool) (chosen_fmt : String)
deriving DecidableEq, Repr

/-- `detect_bit_depth` (mf.py lines 126-186). With `force_8bit` set it
returns `(False, False, "nv12")` at line 136. In every other case control
reaches the unconditional `exit(0)` at line 146: the `force_10bit` branch
only prints (its `return` statements at lines 141 and 144 are commented
out in the source), and the ffprobe-based detection at lines 147-186 is
unreachable dead code, which is why this embedding needs no probe
parameter. -/
def detect_bit_depth (nvenc_formats : List String) (force_8bit force_10bit : Bool) :
    DetectResult :=
  if force_8bit then .ok false false "nv12"
  else .exited 0

/-- The container-compatibility decision of `build_ffmpeg_cmd`
(mf.py lines 333-357) for one subtitle stream that survived language
stripping: `none` means the stream is dropped, `some (some c)` means it is
kept and codec `c` is recorded for it, and `some none` means it is kept
with no codec recorded (the `.avi`/unrecognized-extension case leaves
`final_sub_codec = None` while `keep_stream` stays `True`). -/
def subtitle_resolution (trg_ext src_codec : String) : Option (Option String) :=
  if trg_ext = ".mp4" then
    if src_codec = "subrip" ∨ src_codec = "srt" ∨ src_codec = "ass" ∨
        src_codec = "ssa" ∨ src_codec = "mov_text" then
      some (some "mov_text")
    else none
  else if trg_ext = ".mkv" then some (some "copy")
  else if trg_ext = ".webm" then
    if src_codec = "webvtt" ∨ src_codec = "srt" ∨ src_codec = "subrip" then
      some (some "webvtt")
    else none
  else some none

/-- Survival of language stripping (mf.py lines 327-331): with `strip` set,
audio streams must match the audio language and subtitle streams the
subtitle language (all comparisons lower-cased, as in the source). -/
def survives_strip (strip : Bool) (audio_lang subs_lang : String) (s : StreamInfo) : Bool :=
  if strip then
    if s.codec_type = "audio" ∧ pyLower s.language ≠ pyLower audio_lang then false
    else if s.codec_type = "subtitle" ∧ pyLower s.language ≠ pyLower subs_lang then false
    else true
  else true

/-- The final keep/drop decision of the mapping loop (mf.py lines 325-359)
for one stream: it survives stripping and, when it is a subtitle, the
container table does not drop it. -/
def stream_kept (trg_ext : String) (strip : Bool) (audio_lang subs_lang : String)
    (s : StreamInfo) : Bool :=
  if survives_strip strip audio_lang subs_lang s ∧ s.codec_type = "subtitle" then
    (subtitle_resolution trg_ext s.codec_name).isSome
  else survives_strip strip audio_lang subs_lang s

/-- The entry the mapping loop records in `subs_codecs_per_stream`
(mf.py lines 356-357) for one stream: present exactly when the stream is a
kept subtitle for which the container table chose an output codec. -/
def kept_sub_entry (trg_ext : String) (strip : Bool) (audio_lang subs_lang : String)
    (s : StreamInfo) : Option (Nat × String) :=
  if survives_strip strip audio_lang subs_lang s ∧ s.codec_type = "subtitle" then
    match subtitle_resolution trg_ext s.codec_name with
    | some (some c) => some (s.index, c)
    | _ => none
  else none

/-- Python dict assignment `d[k] = v` on an insertion-ordered association
list: overwrite in place when the key is present, else append. -/
def dict_insert (d : List (Nat × String)) (k : Nat) (v : String) : List (Nat × String) :=
  if d.any (fun p => p.1 == k) then d.map (fun p => if p.1 == k then (k, v) else p)
  else d ++ [(k, v)]

/-- Python `list.index`: position of the first occurrence (the
`ValueError` case of a missing key is unreachable in the program, which
only looks up keys of the dict being enumerated). -/
def py_index (l : List Nat) (k : Nat) : Nat :=
  match l with
  | [] => 0
  | x :: rest => if x = k then 0 else py_index rest k + 1

/-- Body of the stream-mapping loop of `build_ffmpeg_cmd`
(mf.py lines 320-360) for one stream: extend `map_args` when the stream is
kept and record its subtitle codec when the table chose one. -/
def resolve_step (trg_ext : String) (strip : Bool) (audio_lang subs_lang : String)
    (acc : List String × List (Nat × String)) (s : StreamInfo) :
    List String × List (Nat × String) :=
  (if stream_kept trg_ext strip audio_lang subs_lang s then
      acc.1 ++ ["0:" ++ toString s.index]
    else acc.1,
   match kept_sub_entry trg_ext strip audio_lang subs_lang s with
   | some (k, c) => dict_insert acc.2 k c
   | none => acc.2)

/-- The whole stream-mapping loop (mf.py lines 317-360): the ordered
`-map` arguments and the insertion-ordered `subs_codecs_per_stream` dict. -/
def resolve_stream_maps (trg_ext : String) (strip : Bool) (audio_lang subs_lang : String)
    (streams : List StreamInfo) : List String × List (Nat × String) :=
  streams.foldl (resolve_step trg_ext strip audio_lang subs_lang) ([], [])

/-- Emission of the per-subtitle codec overrides (mf.py lines 365-366):
for each dict entry, `-c:s:<position>` where the position is the key's
index in the dict's key list. -/
def sub_codec_args (subs : List (Nat × String)) : List String :=
  (subs.map (fun p =>
    ["-c:s:" ++ toString (py_index (subs.map Prod.fst) p.1), p.2])).flatten

/-- GPU backend detection of `build_ffmpeg_cmd` (mf.py lines 206 and
229-234): `hw_type` is decided purely by tool presence (`nvidia-smi`
first, then `vainfo`); no capability self-test invocation exists in the
source. -/
def select_hw_type (use_gpu has_nvidia_smi has_vainfo : Bool) : String :=
  if use_gpu then
    if has_nvidia_smi then "nvidia"
    else if has_vainfo then "intel"
    else "cpu"
  else "cpu"

/-- The video-options section of `build_ffmpeg_cmd` (mf.py lines
241-308), emitted only when a video transcode is requested and a video
stream exists; `requested` is the lower-cased user video codec. -/
def video_section (hw_type requested : String) (is_10bit is_12bit : Bool)
    (chosen_fmt : String) (quality : Int) : List String :=
  if hw_type = "nvidia" then
    let codec_to_use :=
      if requested = "h264" ∨ requested = "libx264" then "h264_nvenc"
      else if requested = "hevc" ∨ requested = "h265" ∨ requested = "libx265" then "hevc_nvenc"
      else requested
    let vf_filters := if chosen_fmt ≠ "" then ["format=" ++ chosen_fmt] else []
    (if vf_filters ≠ [] then ["-vf", String.intercalate "," vf_filters] else [])
      ++ ["-c:v", codec_to_use]
  else if hw_type = "intel" then
    let sel :=
      if requested = "h264" ∨ requested = "libx264" then
        ("h264_vaapi", ["format=nv12,hwupload"])
      else if requested = "hevc" ∨ requested = "h265" ∨ requested = "libx265" then
        ("hevc_vaapi",
          [if is_10bit || is_12bit then "format=p010,hwupload" else "format=nv12,hwupload"])
      else (requested, ([] : List String))
    (if sel.2 ≠ [] then ["-vf", String.intercalate "," sel.2] else [])
      ++ ["-c:v", sel.1]
      ++ (if 0 < quality then ["-global_quality", toString quality] else [])
  else
    if requested = "h264" ∨ requested = "libx264" then
      let vf_filters := if is_10bit || is_12bit then ["format=yuv420p"] else []
      (if vf_filters ≠ [] then ["-vf", String.intercalate "," vf_filters] else [])
        ++ ["-c:v", "libx264"]
        ++ (if 0 < quality then ["-crf", toString quality] else [])
    else if requested = "hevc" ∨ requested = "h265" ∨ requested = "libx265" then
      ["-c:v", "libx265"] ++ (if 0 < quality then ["-crf", toString quality] else [])
    else ["-c:v", requested]

/-- The audio-options section of `build_ffmpeg_cmd` (mf.py lines
312-315): emitted when an audio transcode is requested; `-ac` only for
the recognized channel counts 2 and 6. -/
def audio_section (audio_codec : String) (audio_channels : Int) : List String :=
  if pyLower audio_codec ≠ "copy" then
    ["-c:a", audio_codec]
      ++ (if audio_channels = 2 ∨ audio_channels = 6 then
            ["-ac", toString audio_channels]
          else [])
  else []

/-- Assembly of the argument list of `build_ffmpeg_cmd` (mf.py lines
205-381) once bit-depth detection has produced `(is_10bit, is_12bit,
chosen_fmt)`; `has_nvidia_smi`/`has_vainfo` model the `shutil.which`
probes of lines 231-233. -/
def build_cmd_core (input_path output_path : String) (quality : Int)
    (video_codec audio_codec : String) (audio_channels : Int)
    (strip : Bool) (audio_lang subs_lang : String)
    (streams : List StreamInfo) (use_gpu : Bool)
    (has_nvidia_smi has_vainfo : Bool)
    (is_10bit is_12bit : Bool) (chosen_fmt : String) : List String :=
  ["ffmpeg", "-y", "-i", input_path]
    ++ (if pyLower video_codec ≠ "copy" ∧
          (streams.find? (fun s => s.codec_type = "video")).isSome then
          video_section (select_hw_type use_gpu has_nvidia_smi has_vainfo)
            (pyLower video_codec) is_10bit is_12bit chosen_fmt quality
        else [])
    ++ audio_section audio_codec audio_channels
    ++ ((resolve_stream_maps (pyLower (path_suffix output_path)) strip audio_lang subs_lang
          streams).1.map (fun m => ["-map", m])).flatten
    ++ sub_codec_args
        (resolve_stream_maps (pyLower (path_suffix output_path)) strip audio_lang subs_lang
          streams).2
    ++ [output_path]

/-- The bit-depth step of `build_ffmpeg_cmd` (mf.py lines 217-225):
`detect_bit_depth` is invoked only when a video stream exists, with
`force_8bit and not force_10bit` as the effective 8-bit force flag. -/
def bit_depth_step (streams : List StreamInfo) (nvenc_formats : List String)
    (force_8bit force_10bit : Bool) : DetectResult :=
  match streams.find? (fun s => s.codec_type = "video") with
  | some _ => detect_bit_depth nvenc_formats (force_8bit && !force_10bit) force_10bit
  | none => DetectResult.ok false false "nv12"

/-- `build_ffmpeg_cmd` (mf.py lines 188-381). `Except.error c` models the
process terminating through `exit(c)` inside `detect_bit_depth`;
`Except.ok` carries the returned argument list. The `subtitle_codec`
parameter belongs to the source signature (mf.py line 195) and is never
read by the body. -/
def build_ffmpeg_cmd (input_path output_path : String) (quality : Int)
    (video_codec audio_codec : String) (audio_channels : Int)
    (subtitle_codec : String) (strip : Bool) (audio_lang subs_lang : String)
    (streams : List StreamInfo) (use_gpu debug : Bool)
    (force_8bit force_10bit : Bool)
    (nvenc_formats : List String) (has_nvidia_smi has_vainfo : Bool) :
    Except Nat (List String) :=
  match bit_depth_step streams nvenc_formats force_8bit force_10bit with
  | .exited c => .error c
  | .ok is_10bit is_12bit chosen_fmt =>
      .ok (build_cmd_core input_path output_path quality video_codec audio_codec
        audio_channels strip audio_lang subs_lang streams use_gpu
        has_nvidia_smi has_vainfo is_10bit is_12bit chosen_fmt)

/-- A filesystem snapshot: each path maps to the identity of its content,
`none` meaning no file exists at that path. -/
abbrev FSState := String → Option Nat

/-- POSIX `rename`: the content at `src` reappears at `dst` (silently
replacing anything there) and `src` disappears. -/
def fs_rename (fs : FSState) (src dst : String) : FSState :=
  fun p => if p = dst then fs src else if p = src then none else fs p

/-- `Path.unlink`. -/
def fs_unlink (fs : FSState) (p : String) : FSState :=
  fun q => if q = p then none else fs q

/-- Clean destination of a temp file:
`tmp_path.with_name(tmp_path.name.replace("_tmp_", "", 1))` (mf.py line 615). -/
def clean_dest (tmp_path : String) : String :=
  path_with_name tmp_path (py_replace_first (path_name tmp_path) "_tmp_" "")

/-- Finalization of one successful job (mf.py lines 615-623): with
`no_replace` the temp file is renamed onto the clean name; otherwise the
source is deleted first (when it still exists) and the temp file is then
renamed onto the clean name. -/
def finalize (no_replace : Bool) (in_path tmp_path : String) (fs : FSState) : FSState :=
  if no_replace then fs_rename fs tmp_path (clean_dest tmp_path)
  else
    let fs1 := if (fs in_path).isSome then fs_unlink fs in_path else fs
    fs_rename fs1 tmp_path (clean_dest tmp_path)

/-- Terminal outcome of one submitted job as observed by `fut.result()`
in the result loop of `main` (mf.py lines 609-628). Four cases are
reachable: the transcode returned false (its message already appended to
the shared list by `transcode_file`); finalization raised an ordinary
exception, caught by the `except Exception` handler at line 627; the
worker hit the `exit(code)` left at mf.py line 146 — the pool's worker
wrapper catches `BaseException` and stores the raised `SystemExit` in
the future, `fut.result()` re-raises it in the main thread, and `except
Exception` does NOT catch `SystemExit`; or the job succeeded. -/
inductive JobResult where
  | transcodeFailed (msg : String)
  | finalizeError (msg : String)
  | systemExit (code : Nat)
  | ok
deriving DecidableEq, Repr

/-- The error message a job contributes to the shared error list, if any
(a re-raised `SystemExit` contributes none: `transcode_file` never
returns and the loop's handler never runs for it). -/
def JobResult.errMsg : JobResult → Option String
  | .transcodeFailed m => some m
  | .finalizeError m => some m
  | .systemExit _ => none
  | .ok => none

/-- Whether the job counted as a success (mf.py line 625). -/
def JobResult.isOk : JobResult → Bool
  | .ok => true
  | _ => false

/-- How the result loop of `main` ends: either every future was
processed and control reaches the summary code (mf.py lines 633-642), or
an uncaught `SystemExit` re-raised by `fut.result()` aborted the loop
and the process terminates with that exit code, skipping the summary,
the error-log write and the zero-successes check. -/
inductive RunOutcome where
  | summary (successes : Nat) (errors : List String)
  | aborted (code : Nat)
deriving DecidableEq, Repr

/-- The result loop of `main` (mf.py lines 609-628) from a given
successes/errors accumulator: ordinary job outcomes update the
accumulator and the loop continues (failures append their message,
successes increment the counter); a re-raised `SystemExit` escapes the
`except Exception` handler at line 627 and ends the loop at once. -/
def run_loop : List JobResult → Nat × List String → RunOutcome
  | [], acc => .summary acc.1 acc.2
  | j :: rest, acc =>
    match j with
    | .ok => run_loop rest (acc.1 + 1, acc.2)
    | .transcodeFailed m => run_loop rest (acc.1, acc.2 ++ [m])
    | .finalizeError m => run_loop rest (acc.1, acc.2 ++ [m])
    | .systemExit c => .aborted c

/-- The whole result loop of `main`, started on an empty accumulator. -/
def run_jobs (jobs : List JobResult) : RunOutcome :=
  run_loop jobs (0, [])

/-- End-of-run error artifact (mf.py lines 635-639): a single log file
holding the newline-joined error list, written only when the loop
completed and errors exist; an aborted run writes nothing. -/
def final_error_log (jobs : List JobResult) : Option String :=
  match run_jobs jobs with
  | .summary _ e => if e = [] then none else some (String.intercalate "\n" e)
  | .aborted _ => none

/-- Whether the process terminates with a non-zero status: after a
completed loop this is the zero-successes check of mf.py lines 641-642;
an aborted run terminates with the `SystemExit` code itself (0 for the
`exit(0)` at line 146). -/
def exits_nonzero (jobs : List JobResult) : Bool :=
  match run_jobs jobs with
  | .summary s _ => s == 0
  | .aborted c => c != 0

/-- Modelled from the spec: the backend-selection state machine of
section 4.3, including the capability self-test invocation the spec
describes and the source does not contain; `selftest_ok` is the outcome
that self-test would report for the vendor-A backend. -/
def spec_select_backend (use_gpu has_video vendorA_present selftest_ok vendorB_present : Bool) :
    String :=
  if !use_gpu || !has_video then "none"
  else if vendorA_present && selftest_ok then "vendorA"
  else if vendorB_present then "vendorB"
  else "none"

/-- Renaming of the source's `hw_type` values onto the spec's backend
names. -/
def backend_of_hw : String → String
  | "nvidia" => "vendorA"
  | "intel" => "vendorB"
  | _ => "none"

/-- The container table as claim C2 must be amended: `.mp4`, `.mkv` and
`.webm` behave as in section 4.2 of the spec, while `.avi` and every
unrecognized target extension keep each surviving subtitle stream with no
codec override instead of dropping it. -/
def amended_subtitle_table (trg_ext src_codec : String) : Option (Option String) :=
  if trg_ext = ".mp4" then
    if src_codec = "subrip" ∨ src_codec = "srt" ∨ src_codec = "ass" ∨
        src_codec = "ssa" ∨ src_codec = "mov_text" then
      some (some "mov_text")
    else none
  else if trg_ext = ".mkv" then some (some "copy")
  else if trg_ext = ".webm" then
    if src_codec = "webvtt" ∨ src_codec = "srt" ∨ src_codec = "subrip" then
      some (some "webvtt")
    else none
  else some none

/-- Number of occurrences of token `t` in an argument list. -/
def count_tok (l : List String) (t : String) : Nat :=
  (l.filter (fun x => x = t)).length

/-- Whether a token is a per-subtitle codec-override key `-c:s:<k>`. -/
def is_cs_token (t : String) : Bool :=
  "-c:s:".data.isPrefixOf t.data

/-- Filesystem snapshot for the C7 counterexample: the source
`movie.mkv` holds content 1, the finished temp file `_tmp_movie.mkv`
(same container, same directory) holds content 2. -/
def fs_same_container : FSState :=
  fun p => if p = "movie.mkv" then some 1 else if p = "_tmp_movie.mkv" then some 2 else none

/-- Filesystem snapshot for the C7 witness: the source `movie.mkv` holds
content 1, the temp file `_tmp_movie.mp4` (container change) holds
content 2. -/
def fs_container_change : FSState :=
  fun p => if p = "movie.mkv" then some 1 else if p = "_tmp_movie.mp4" then some 2 else none

/-! ## Theorems -/

/-- Helper: `String.data` distributes over append. -/
theorem string_data_append (a b : String) : (a ++ b).data = a.data ++ b.data := by
  cases a; cases b; rfl

/-- Helper: when the pattern is a prefix of the input, `replace_first`
strips exactly that leading occurrence. -/
theorem replace_first_of_leading (pat rest repl : List Char) :
    replace_first (pat ++ rest) pat repl = repl ++ rest := by
  have h : pat.isPrefixOf (pat ++ rest) = true :=
    List.isPrefixOf_iff_prefix.mpr (List.prefix_append pat rest)
  unfold replace_first
  simp [h, List.drop_left]

/-- C10: the clean destination name is computed by removing only the first
occurrence of the temp marker; since the temp name is the marker prefixed to
the original filename, first-occurrence removal recovers the original name
exactly — for every original name, including ones that themselves contain
`_tmp_`, whose later occurrences are all retained because the result is the
original name verbatim. -/
theorem c10_marker_removal_recovers_name (s : String) :
    py_replace_first ("_tmp_" ++ s) "_tmp_" "" = s := by
  unfold py_replace_first
  rw [string_data_append, replace_first_of_leading]
  cases s
  rfl

/-- C1 (refuted as stated; the code is the bug): with a video stream present
and `force_8bit` unset, `build_ffmpeg_cmd` does not return an argument
list — its bit-depth negotiation step reaches the unconditional `exit(0)`
left at mf.py line 146 and the process terminates. -/
theorem c1_bit_depth_step_exits_process :
    build_ffmpeg_cmd "movie.mkv" "_tmp_movie.mkv" 0 "copy" "copy" 0 "copy" false
      "eng" "eng" [⟨0, "video", "h264", "und"⟩] true false false false [] false false
      = Except.error 0 := rfl

/-- C9: the user-requested subtitle codec never influences the compiled
plan — two `build_ffmpeg_cmd` calls that differ only in `subtitle_codec`
produce identical results. -/
theorem c9_subtitle_codec_noninterference
    (input_path output_path : String) (quality : Int)
    (video_codec audio_codec : String) (audio_channels : Int)
    (sc1 sc2 : String) (strip : Bool) (audio_lang subs_lang : String)
    (streams : List StreamInfo) (use_gpu debug force_8bit force_10bit : Bool)
    (nvenc_formats : List String) (has_nvidia_smi has_vainfo : Bool) :
    build_ffmpeg_cmd input_path output_path quality video_codec audio_codec
        audio_channels sc1 strip audio_lang subs_lang streams use_gpu debug
        force_8bit force_10bit nvenc_formats has_nvidia_smi has_vainfo
      = build_ffmpeg_cmd input_path output_path quality video_codec audio_codec
        audio_channels sc2 strip audio_lang subs_lang streams use_gpu debug
        force_8bit force_10bit nvenc_formats has_nvidia_smi has_vainfo := rfl

/-- C2 counterexample: target `.avi` with one surviving `subrip` subtitle.
The claim says `.avi` drops every subtitle stream, but the compiled plan
keeps it: the subtitle stream is mapped (`-map 0:0` present). -/
theorem c2_avi_keeps_subtitle :
    build_ffmpeg_cmd "movie.mkv" "_tmp_movie.avi" 0 "copy" "copy" 0 "copy" false
        "eng" "eng" [⟨0, "subtitle", "subrip", "eng"⟩] true false false false [] false false
      = Except.ok ["ffmpeg", "-y", "-i", "movie.mkv", "-map", "0:0", "_tmp_movie.avi"]
    ∧ "-map" ∈ ["ffmpeg", "-y", "-i", "movie.mkv", "-map", "0:0", "_tmp_movie.avi"] :=
  ⟨rfl, by decide⟩

/-- C2 (amended): for every subtitle stream that survives language
stripping, the mapping loop's keep/drop decision and recorded codec follow
the amended container table — `.mp4` and `.webm` as in the spec, `.mkv`
copies, and `.avi`/unrecognized targets keep the stream with no codec
override rather than dropping it. -/
theorem c2_surviving_subtitle_follows_amended_table
    (trg_ext : String) (strip : Bool) (audio_lang subs_lang : String) (s : StreamInfo)
    (hsub : s.codec_type = "subtitle")
    (hsurv : survives_strip strip audio_lang subs_lang s = true) :
    stream_kept trg_ext strip audio_lang subs_lang s
      = (amended_subtitle_table trg_ext s.codec_name).isSome
    ∧ kept_sub_entry trg_ext strip audio_lang subs_lang s
      = ((amended_subtitle_table trg_ext s.codec_name).join).map (fun c => (s.index, c)) := by
  have htab : amended_subtitle_table trg_ext s.codec_name
      = subtitle_resolution trg_ext s.codec_name := rfl
  unfold stream_kept kept_sub_entry
  rw [htab]
  rcases hres : subtitle_resolution trg_ext s.codec_name with _ | oc
  · simp [hsurv, hsub, hres]
  · rcases oc with _ | c <;> simp [hsurv, hsub, hres]

/-- C2 witness: instantiation of the amended-table theorem at a concrete
surviving `ass` subtitle stream and an `.mp4` target. -/
theorem c2_table_witness :
    stream_kept ".mp4" false "eng" "eng" ⟨3, "subtitle", "ass", "eng"⟩
      = (amended_subtitle_table ".mp4" "ass").isSome
    ∧ kept_sub_entry ".mp4" false "eng" "eng" ⟨3, "subtitle", "ass", "eng"⟩
      = ((amended_subtitle_table ".mp4" "ass").join).map (fun c => ((3 : Nat), c)) :=
  c2_surviving_subtitle_follows_amended_table ".mp4" false "eng" "eng"
    ⟨3, "subtitle", "ass", "eng"⟩ rfl rfl

/-- C4 counterexample: no container change (`.mp4` source, `.mp4` target)
with an image-based `hdmv_pgs_subtitle` stream. The claim says the subtitle
is kept and copied; the compiled plan drops it — no `-map` directive is
emitted at all. -/
theorem c4_same_container_still_drops :
    path_suffix "movie.mp4" = path_suffix "_tmp_movie.mp4"
    ∧ build_ffmpeg_cmd "movie.mp4" "_tmp_movie.mp4" 0 "copy" "copy" 0 "copy" false
        "eng" "eng" [⟨0, "subtitle", "hdmv_pgs_subtitle", "eng"⟩] true false false false [] false false
      = Except.ok ["ffmpeg", "-y", "-i", "movie.mp4", "_tmp_movie.mp4"]
    ∧ "-map" ∉ ["ffmpeg", "-y", "-i", "movie.mp4", "_tmp_movie.mp4"] :=
  ⟨rfl, rfl, by decide⟩

/-- C4 (amended): the compiler never consults the source container — the
input path appears only as the `-i` argument (tokens 0-3 of the plan), so
everything after it, including every subtitle keep/drop/recode decision, is
identical for any two source paths; a no-op container change is therefore
handled exactly as the target-extension table dictates, not specially. -/
theorem c4_source_extension_never_consulted
    (p1 p2 output_path : String) (quality : Int)
    (video_codec audio_codec : String) (audio_channels : Int)
    (subtitle_codec : String) (strip : Bool) (audio_lang subs_lang : String)
    (streams : List StreamInfo) (use_gpu debug force_8bit force_10bit : Bool)
    (nvenc_formats : List String) (has_nvidia_smi has_vainfo : Bool) :
    Except.map (fun l => l.drop 4)
        (build_ffmpeg_cmd p1 output_path quality video_codec audio_codec audio_channels
          subtitle_codec strip audio_lang subs_lang streams use_gpu debug
          force_8bit force_10bit nvenc_formats has_nvidia_smi has_vainfo)
      = Except.map (fun l => l.drop 4)
        (build_ffmpeg_cmd p2 output_path quality video_codec audio_codec audio_channels
          subtitle_codec strip audio_lang subs_lang streams use_gpu debug
          force_8bit force_10bit nvenc_formats has_nvidia_smi has_vainfo) := by
  unfold build_ffmpeg_cmd
  cases bit_depth_step streams nvenc_formats force_8bit force_10bit <;> rfl

/-- C5 counterexample: vendor-A tooling present, vendor-B tooling present,
and a capability self-test that would fail. The spec-modelled selector must
avoid the failed vendor-A backend and pick vendor-B, but the source's
`hw_type` selection performs no self-test invocation at all and still
selects the vendor-A backend. -/
theorem c5_failed_selftest_backend_still_selected :
    backend_of_hw (select_hw_type true true true) = "vendorA"
    ∧ spec_select_backend true true true false true = "vendorB" := ⟨rfl, rfl⟩

/-- C6 counterexample: NVENC backend (vendor-A), quality 20 > 0, and the
quality-controllable `h264` family. The claim says the plan contains a
backend-specific quality knob; the compiled plan contains no quality flag
of any kind and never mentions the quality value. -/
theorem c6_nvenc_plan_has_no_quality_flag :
    build_ffmpeg_cmd "movie.mkv" "_tmp_movie.mkv" 20 "h264" "copy" 0 "copy" false
        "eng" "eng" [⟨0, "video", "h264", "und"⟩] true false true false [] true false
      = Except.ok ["ffmpeg", "-y", "-i", "movie.mkv", "-vf", "format=nv12",
          "-c:v", "h264_nvenc", "-map", "0:0", "_tmp_movie.mkv"]
    ∧ "-crf" ∉ ["ffmpeg", "-y", "-i", "movie.mkv", "-vf", "format=nv12",
          "-c:v", "h264_nvenc", "-map", "0:0", "_tmp_movie.mkv"]
    ∧ "-global_quality" ∉ ["ffmpeg", "-y", "-i", "movie.mkv", "-vf", "format=nv12",
          "-c:v", "h264_nvenc", "-map", "0:0", "_tmp_movie.mkv"]
    ∧ "-cq" ∉ ["ffmpeg", "-y", "-i", "movie.mkv", "-vf", "format=nv12",
          "-c:v", "h264_nvenc", "-map", "0:0", "_tmp_movie.mkv"]
    ∧ "20" ∉ ["ffmpeg", "-y", "-i", "movie.mkv", "-vf", "format=nv12",
          "-c:v", "h264_nvenc", "-map", "0:0", "_tmp_movie.mkv"] :=
  ⟨rfl, by decide, by decide, by decide, by decide⟩

/-- C7 counterexample: a successful encode finalized in "no-replace" mode
with no container change. The clean name equals the source path, so the
rename installs the transcoded content over the original: the source
`movie.mkv` held content 1 before finalization and holds the temp file's
content 2 after it — it is not left untouched. -/
theorem c7_no_replace_overwrites_source :
    clean_dest "_tmp_movie.mkv" = "movie.mkv"
    ∧ fs_same_container "movie.mkv" = some 1
    ∧ finalize true "movie.mkv" "_tmp_movie.mkv" fs_same_container "movie.mkv" = some 2 :=
  ⟨rfl, rfl, rfl⟩

/-- C7 (amended): on finalization in "no-replace" mode the temp file is
renamed onto the clean name (temp marker removed) and the original source
is left untouched, provided the clean destination differs from the source
path (as with a container change or an alternate output root); when the
clean name coincides with the source path the rename replaces the
original. -/
theorem c7_no_replace_finalization (fs : FSState) (in_path tmp_path : String)
    (hclean : clean_dest tmp_path ≠ in_path) (htmp : tmp_path ≠ in_path) :
    finalize true in_path tmp_path fs in_path = fs in_path
    ∧ finalize true in_path tmp_path fs (clean_dest tmp_path) = fs tmp_path := by
  have h1 : ¬ (in_path = clean_dest tmp_path) := fun h => hclean h.symm
  have h2 : ¬ (in_path = tmp_path) := fun h => htmp h.symm
  exact ⟨by simp [finalize, fs_rename, h1, h2], by simp [finalize, fs_rename]⟩

/-- C7 witness: the amended finalization theorem at a concrete container
change, `_tmp_movie.mp4` →`movie.mp4`, next to the source `movie.mkv`. -/
theorem c7_finalization_witness :
    finalize true "movie.mkv" "_tmp_movie.mp4" fs_container_change "movie.mkv"
      = fs_container_change "movie.mkv"
    ∧ finalize true "movie.mkv" "_tmp_movie.mp4" fs_container_change (clean_dest "_tmp_movie.mp4")
      = fs_container_change "_tmp_movie.mp4" :=
  c7_no_replace_finalization fs_container_change "movie.mkv" "_tmp_movie.mp4"
    (by decide) (by decide)

/-- Helper: when no worker re-raised `SystemExit`, the result loop is a
total fold — every job outcome is processed, successes counted and
failure messages appended in order. This is the policy the loop's own
error handling, summary, log write and zero-successes check implement,
broken only by the `exit(0)` leftover at mf.py line 146. -/
theorem run_loop_no_exit (jobs : List JobResult)
    (h : ∀ c, JobResult.systemExit c ∉ jobs) :
    ∀ acc : Nat × List String,
      run_loop jobs acc
        = RunOutcome.summary (acc.1 + (jobs.filter JobResult.isOk).length)
            (acc.2 ++ jobs.filterMap JobResult.errMsg) := by
  induction jobs with
  | nil => intro acc; simp [run_loop]
  | cons j l ih =>
      intro acc
      have hl : ∀ c, JobResult.systemExit c ∉ l := fun c hc =>
        h c (List.mem_cons_of_mem j hc)
      cases j with
      | transcodeFailed m =>
          rw [show run_loop (JobResult.transcodeFailed m :: l) acc
              = run_loop l (acc.1, acc.2 ++ [m]) from rfl, ih hl]
          simp [JobResult.isOk, JobResult.errMsg, List.filter_cons, List.filterMap_cons]
      | finalizeError m =>
          rw [show run_loop (JobResult.finalizeError m :: l) acc
              = run_loop l (acc.1, acc.2 ++ [m]) from rfl, ih hl]
          simp [JobResult.isOk, JobResult.errMsg, List.filter_cons, List.filterMap_cons]
      | systemExit c =>
          exact absurd (List.mem_cons_self _ _) (h c)
      | ok =>
          rw [show run_loop (JobResult.ok :: l) acc
              = run_loop l (acc.1 + 1, acc.2) from rfl, ih hl]
          simp [JobResult.isOk, JobResult.errMsg, List.filter_cons, List.filterMap_cons]
          omega

/-- Helper: closed form of `run_jobs` for runs without a re-raised
`SystemExit`. -/
theorem run_jobs_no_exit (jobs : List JobResult)
    (h : ∀ c, JobResult.systemExit c ∉ jobs) :
    run_jobs jobs
      = RunOutcome.summary (jobs.filter JobResult.isOk).length
          (jobs.filterMap JobResult.errMsg) := by
  unfold run_jobs
  rw [run_loop_no_exit jobs h]
  simp

/-- C8 (refuted as stated; the code is the bug): a job whose worker hit
the `exit(0)` leftover at mf.py line 146 stores a `SystemExit` in its
future; `fut.result()` re-raises it and `except Exception` at line 627
cannot catch it, so the run aborts — a per-job failure does abort the
run, the process terminates with exit code 0 although zero jobs
succeeded, and the pending failure message is never written to any log.
The first conjunct shows the aborting outcome is reachable: compiling an
ordinary video-stream job with default flags is exactly the `exit(0)`
path. -/
theorem c8_system_exit_swallows_failures :
    build_ffmpeg_cmd "clip.mp4" "_tmp_clip.mp4" 0 "copy" "copy" 0 "copy" false
      "eng" "eng" [⟨0, "video", "h264", "und"⟩] true false false false [] false false
      = Except.error 0
    ∧ run_jobs [JobResult.transcodeFailed "bad", JobResult.systemExit 0]
      = RunOutcome.aborted 0
    ∧ (([JobResult.transcodeFailed "bad", JobResult.systemExit 0].filter
        JobResult.isOk).length = 0)
    ∧ exits_nonzero [JobResult.transcodeFailed "bad", JobResult.systemExit 0] = false
    ∧ final_error_log [JobResult.transcodeFailed "bad", JobResult.systemExit 0] = none :=
  ⟨rfl, rfl, rfl, rfl, rfl⟩

/-- C6 (amended): with quality > 0, the software path emits `-crf` for the
quality-controllable h264/hevc families, the vendor-B (VAAPI) path emits
`-global_quality` (for every requested codec), and the vendor-A (NVENC)
path emits no quality flag at all — its video section does not depend on
the quality value. -/
theorem c6_quality_flags_by_backend (requested : String) (is10 is12 : Bool)
    (fmt : String) (q : Int) (hq : 0 < q) :
    ((requested = "h264" ∨ requested = "libx264" ∨ requested = "hevc" ∨
        requested = "h265" ∨ requested = "libx265") →
      "-crf" ∈ video_section "cpu" requested is10 is12 fmt q
      ∧ toString q ∈ video_section "cpu" requested is10 is12 fmt q)
    ∧ ("-global_quality" ∈ video_section "intel" requested is10 is12 fmt q
      ∧ toString q ∈ video_section "intel" requested is10 is12 fmt q)
    ∧ video_section "nvidia" requested is10 is12 fmt q
      = video_section "nvidia" requested is10 is12 fmt 0 := by
  refine ⟨?_, ?_, rfl⟩
  · intro hreq
    rcases hreq with h | h | h | h | h <;> subst h <;>
      constructor <;> simp [video_section, hq]
  · by_cases h1 : requested = "h264" ∨ requested = "libx264"
    · constructor <;> simp [video_section, h1, hq]
    · by_cases h2 : requested = "hevc" ∨ requested = "h265" ∨ requested = "libx265"
      · constructor <;> simp [video_section, h1, h2, hq]
      · constructor <;> simp [video_section, h1, h2, hq]

/-- C6 witness: the amended quality theorem at quality 23 and the `hevc`
software family. -/
theorem c6_quality_witness :
    "-crf" ∈ video_section "cpu" "hevc" false false "nv12" 23
    ∧ toString (23 : Int) ∈ video_section "cpu" "hevc" false false "nv12" 23 :=
  (c6_quality_flags_by_backend "hevc" false false "nv12" 23 (by decide)).1
    (Or.inr (Or.inr (Or.inl rfl)))

/-- Helper: `count_tok` on an empty list. -/
theorem count_tok_nil (t : String) : count_tok [] t = 0 := rfl

/-- Helper: `count_tok` on a cons. -/
theorem count_tok_cons (a : String) (l : List String) (t : String) :
    count_tok (a :: l) t = (if a = t then 1 else 0) + count_tok l t := by
  unfold count_tok
  rw [List.filter_cons]
  by_cases h : a = t <;> simp [h] <;> omega

/-- Helper: `count_tok` distributes over append. -/
theorem count_tok_append (l1 l2 : List String) (t : String) :
    count_tok (l1 ++ l2) t = count_tok l1 t + count_tok l2 t := by
  simp [count_tok, List.filter_append]

/-- Helper: a stream-map token `0:<idx>` is never the `-map` flag. -/
theorem zero_colon_ne_map (s : String) : ("0:" ++ s) ≠ "-map" := by
  intro h
  have hd := congrArg String.data h
  rw [string_data_append] at hd
  injection hd with h1 _
  exact absurd h1 (by decide)

/-- Helper: a subtitle-override key `-c:s:<k>` is never the `-map` flag. -/
theorem cs_key_ne_map (s : String) : ("-c:s:" ++ s) ≠ "-map" := by
  intro h
  have hd := congrArg String.data h
  rw [string_data_append] at hd
  injection hd with _ h2
  injection h2 with h3 _
  exact absurd h3 (by decide)

/-- Helper: a subtitle-override key is recognized by `is_cs_token`. -/
theorem is_cs_token_key (s : String) : is_cs_token ("-c:s:" ++ s) = true := by
  unfold is_cs_token
  rw [string_data_append]
  exact List.isPrefixOf_iff_prefix.mpr (List.prefix_append _ _)

/-- Helper: a stream-map token `0:<idx>` is not an override key. -/
theorem is_cs_token_zero_colon (s : String) : is_cs_token ("0:" ++ s) = false := by
  unfold is_cs_token
  rw [string_data_append]
  rfl

/-- Helper: a filter token `format=<fmt>` is not an override key. -/
theorem is_cs_token_format (s : String) : is_cs_token ("format=" ++ s) = false := by
  unfold is_cs_token
  rw [string_data_append]
  rfl

/-- Helper: a filter token `format=<fmt>` is never the `-map` flag. -/
theorem format_ne_map (s : String) : ("format=" ++ s) ≠ "-map" := by
  intro h
  have hd := congrArg String.data h
  rw [string_data_append] at hd
  injection hd with h1 _
  exact absurd h1 (by decide)

/-- Helper: joining a singleton list is the identity. -/
theorem intercalate_singleton (s x : String) : String.intercalate s [x] = x := rfl

/-- Helper: the first component of the mapping fold collects one `0:<idx>`
token per kept stream, in catalog order. -/
theorem resolve_fold_fst (trg : String) (st : Bool) (al sl : String) (l : List StreamInfo) :
    ∀ acc : List String × List (Nat × String),
      (l.foldl (resolve_step trg st al sl) acc).1
        = acc.1 ++ (l.filter (stream_kept trg st al sl)).map (fun s => "0:" ++ toString s.index) := by
  induction l with
  | nil => intro acc; simp
  | cons s l ih =>
      intro acc
      rw [List.foldl_cons, ih]
      by_cases hk : stream_kept trg st al sl s = true
      · simp [resolve_step, hk, List.filter_cons]
      · simp [resolve_step, hk, List.filter_cons]

/-- Helper: the second component of the mapping fold is the dict obtained
by inserting the kept-subtitle entries in catalog order. -/
theorem resolve_fold_snd (trg : String) (st : Bool) (al sl : String) (l : List StreamInfo) :
    ∀ acc : List String × List (Nat × String),
      (l.foldl (resolve_step trg st al sl) acc).2
        = (l.filterMap (kept_sub_entry trg st al sl)).foldl
            (fun d p => dict_insert d p.1 p.2) acc.2 := by
  induction l with
  | nil => intro acc; simp
  | cons s l ih =>
      intro acc
      rw [List.foldl_cons, ih, List.filterMap_cons]
      cases he : kept_sub_entry trg st al sl s with
      | none => simp [resolve_step, he]
      | some p => cases p with
        | mk k c => simp [resolve_step, he]

/-- Helper: inserting a fresh key into the dict appends it. -/
theorem dict_insert_of_not_mem (d : List (Nat × String)) (k : Nat) (v : String)
    (h : k ∉ d.map Prod.fst) : dict_insert d k v = d ++ [(k, v)] := by
  unfold dict_insert
  rw [if_neg]
  intro hc
  rcases List.any_eq_true.mp hc with ⟨p, hp, he⟩
  exact h (List.mem_map.mpr ⟨p, hp, beq_iff_eq.mp he⟩)

/-- Helper: folding dict insertion over entries with fresh, pairwise
distinct keys just appends them in order. -/
theorem dict_fold_disjoint (l : List (Nat × String)) :
    ∀ d : List (Nat × String),
      (l.map Prod.fst).Nodup →
      (∀ k, k ∈ l.map Prod.fst → k ∉ d.map Prod.fst) →
      l.foldl (fun d p => dict_insert d p.1 p.2) d = d ++ l := by
  induction l with
  | nil => intro d _ _; simp
  | cons p l ih =>
      intro d hnd hdis
      simp only [List.map_cons, List.nodup_cons] at hnd
      rw [List.foldl_cons, dict_insert_of_not_mem _ _ _ (hdis p.1 (by simp))]
      rw [ih (d ++ [(p.1, p.2)]) hnd.2]
      · simp
      · intro k hk
        rw [List.map_append, List.mem_append]
        rintro (hkd | hkp)
        · exact hdis k (by simp [hk]) hkd
        · simp at hkp
          exact hnd.1 (hkp ▸ hk)

/-- Helper: a recorded entry's key is the stream's index. -/
theorem kept_sub_entry_key (trg : String) (st : Bool) (al sl : String) (s : StreamInfo)
    (p : Nat × String) (h : kept_sub_entry trg st al sl s = some p) : p.1 = s.index := by
  unfold kept_sub_entry at h
  rcases hres : subtitle_resolution trg s.codec_name with _ | oc
  · rw [hres] at h; split at h <;> simp_all
  · rcases oc with _ | c
    · rw [hres] at h; split at h <;> simp_all
    · rw [hres] at h
      split at h
      · have hp := Option.some.inj h
        rw [← hp]
      · simp_all

/-- Helper: every codec the container table records is one of the three
fixed output codecs. -/
theorem subtitle_resolution_values (trg src c : String)
    (h : subtitle_resolution trg src = some (some c)) :
    c = "mov_text" ∨ c = "copy" ∨ c = "webvtt" := by
  unfold subtitle_resolution at h
  split_ifs at h <;> simp_all

/-- Helper: a recorded entry's value is one of the three fixed output
codecs. -/
theorem kept_sub_entry_val (trg : String) (st : Bool) (al sl : String) (s : StreamInfo)
    (p : Nat × String) (h : kept_sub_entry trg st al sl s = some p) :
    p.2 = "mov_text" ∨ p.2 = "copy" ∨ p.2 = "webvtt" := by
  unfold kept_sub_entry at h
  rcases hres : subtitle_resolution trg s.codec_name with _ | oc
  · rw [hres] at h; split at h <;> simp_all
  · rcases oc with _ | c
    · rw [hres] at h; split at h <;> simp_all
    · rw [hres] at h
      split at h
      · have hp := Option.some.inj h
        rw [← hp]
        exact subtitle_resolution_values trg s.codec_name c hres
      · simp_all

/-- Helper: the recorded entry keys are a sublist of the stream indices. -/
theorem entries_keys_sublist (trg : String) (st : Bool) (al sl : String)
    (l : List StreamInfo) :
    ((l.filterMap (kept_sub_entry trg st al sl)).map Prod.fst).Sublist
      (l.map StreamInfo.index) := by
  induction l with
  | nil => simp
  | cons s l ih =>
      rw [List.filterMap_cons]
      cases he : kept_sub_entry trg st al sl s with
      | none => simp only [List.map_cons]; exact ih.cons _
      | some p =>
          simp only [List.map_cons]
          rw [kept_sub_entry_key trg st al sl s p he]
          exact ih.cons₂ _

/-- Helper: enumerating a duplicate-free key list through `py_index`
yields exactly the positions `0, 1, 2, …`. -/
theorem py_index_map_self (K : List Nat) (h : K.Nodup) :
    K.map (fun k => py_index K k) = List.range K.length := by
  induction K with
  | nil => rfl
  | cons a K ih =>
      have ha : a ∉ K := (List.nodup_cons.mp h).1
      have h2 : K.Nodup := (List.nodup_cons.mp h).2
      rw [List.map_cons]
      have h0 : py_index (a :: K) a = 0 := by simp [py_index]
      have hstep : K.map (fun k => py_index (a :: K) k)
          = (K.map (fun k => py_index K k)).map (fun n => n + 1) := by
        rw [List.map_map]
        apply List.map_congr_left
        intro x hx
        have hxa : ¬ (a = x) := fun hax => ha (hax ▸ hx)
        simp [py_index, hxa]
      rw [h0, hstep, ih h2, List.length_cons, List.range_succ_eq_map]

/-- Helper: the override tokens of a pair list whose values are not keys,
filtered down to override keys, are exactly the emitted key tokens. -/
theorem sub_tokens_filter_cs (K : List Nat) (l : List (Nat × String))
    (hv : ∀ p ∈ l, is_cs_token p.2 = false) :
    ((l.map (fun p => ["-c:s:" ++ toString (py_index K p.1), p.2])).flatten).filter is_cs_token
      = l.map (fun p => "-c:s:" ++ toString (py_index K p.1)) := by
  induction l with
  | nil => rfl
  | cons p l ih =>
      rw [List.map_cons, List.flatten_cons, List.filter_append]
      rw [ih (fun q hq => hv q (List.mem_cons_of_mem p hq))]
      rw [List.filter_cons, List.filter_cons]
      simp [is_cs_token_key, hv p (List.mem_cons_self p l)]

/-- Helper: the override tokens never contain the `-map` flag when the
values do not. -/
theorem sub_tokens_no_map (K : List Nat) (l : List (Nat × String))
    (hv : ∀ p ∈ l, p.2 ≠ "-map") :
    count_tok ((l.map (fun p => ["-c:s:" ++ toString (py_index K p.1), p.2])).flatten) "-map"
      = 0 := by
  induction l with
  | nil => rfl
  | cons p l ih =>
      rw [List.map_cons, List.flatten_cons, count_tok_append]
      rw [ih (fun q hq => hv q (List.mem_cons_of_mem p hq))]
      rw [count_tok_cons, count_tok_cons, count_tok_nil]
      simp [cs_key_ne_map, hv p (List.mem_cons_self p l)]

/-- Helper: the `-c:s:` override section of a duplicate-free dict,
filtered to override keys, is the contiguous 0-based key range. -/
theorem sub_codec_args_filter_cs (subs : List (Nat × String))
    (hnd : (subs.map Prod.fst).Nodup)
    (hv : ∀ p ∈ subs, is_cs_token p.2 = false) :
    (sub_codec_args subs).filter is_cs_token
      = (List.range subs.length).map (fun i => "-c:s:" ++ toString i) := by
  unfold sub_codec_args
  rw [sub_tokens_filter_cs (subs.map Prod.fst) subs hv]
  have hcomp : subs.map (fun p => "-c:s:" ++ toString (py_index (subs.map Prod.fst) p.1))
      = ((subs.map Prod.fst).map (fun k => py_index (subs.map Prod.fst) k)).map
          (fun n => "-c:s:" ++ toString n) := by
    rw [List.map_map, List.map_map]
    rfl
  rw [hcomp, py_index_map_self (subs.map Prod.fst) hnd, List.length_map]

/-- Helper: the `-map` flag count of the override section is zero. -/
theorem sub_codec_args_no_map (subs : List (Nat × String))
    (hv : ∀ p ∈ subs, p.2 ≠ "-map") :
    count_tok (sub_codec_args subs) "-map" = 0 := by
  unfold sub_codec_args
  exact sub_tokens_no_map (subs.map Prod.fst) subs hv

/-- Helper: the `-map` section contributes exactly one flag per mapped
stream. -/
theorem map_part_count (ms : List String) (h : ∀ m ∈ ms, m ≠ "-map") :
    count_tok ((ms.map (fun m => ["-map", m])).flatten) "-map" = ms.length := by
  induction ms with
  | nil => rfl
  | cons m ms ih =>
      rw [List.map_cons, List.flatten_cons, count_tok_append]
      rw [ih (fun x hx => h x (List.mem_cons_of_mem m hx))]
      rw [count_tok_cons, count_tok_cons, count_tok_nil]
      simp [h m (List.mem_cons_self m ms)]
      omega

/-- Helper: the `-map` section contains no override keys. -/
theorem map_part_no_cs (ms : List String) (h : ∀ m ∈ ms, is_cs_token m = false) :
    ((ms.map (fun m => ["-map", m])).flatten).filter is_cs_token = [] := by
  induction ms with
  | nil => rfl
  | cons m ms ih =>
      rw [List.map_cons, List.flatten_cons, List.filter_append]
      rw [ih (fun x hx => h x (List.mem_cons_of_mem m hx))]
      rw [List.filter_cons, List.filter_cons]
      simp [h m (List.mem_cons_self m ms), show is_cs_token "-map" = false from rfl]

/-- Helper: the video-options section contains no `-map` flag, provided
the lower-cased user codec and the quality rendering do not collide with
it. -/
theorem video_section_no_map (hw req fmt : String) (i10 i12 : Bool) (q : Int)
    (hreq : req ≠ "-map") (hq : toString q ≠ "-map")
    (hfmt : ("format=" ++ fmt) ≠ "-map") :
    count_tok (video_section hw req i10 i12 fmt q) "-map" = 0 := by
  have d1 : ("-vf" : String) ≠ "-map" := by decide
  have d2 : ("-c:v" : String) ≠ "-map" := by decide
  have d3 : ("-crf" : String) ≠ "-map" := by decide
  have d4 : ("-global_quality" : String) ≠ "-map" := by decide
  have d5 : ("h264_nvenc" : String) ≠ "-map" := by decide
  have d6 : ("hevc_nvenc" : String) ≠ "-map" := by decide
  have d7 : ("h264_vaapi" : String) ≠ "-map" := by decide
  have d8 : ("hevc_vaapi" : String) ≠ "-map" := by decide
  have d9 : ("libx264" : String) ≠ "-map" := by decide
  have d10 : ("libx265" : String) ≠ "-map" := by decide
  have d11 : ("format=nv12,hwupload" : String) ≠ "-map" := by decide
  have d12 : ("format=p010,hwupload" : String) ≠ "-map" := by decide
  have d13 : ("format=yuv420p" : String) ≠ "-map" := by decide
  unfold video_section
  split_ifs <;>
    simp_all [count_tok_cons, count_tok_append, count_tok_nil, intercalate_singleton]

/-- Helper: the video-options section contains no subtitle-override key,
provided the lower-cased user codec and the quality rendering are not
such keys. -/
theorem video_section_no_cs (hw req fmt : String) (i10 i12 : Bool) (q : Int)
    (hreq : is_cs_token req = false) (hq : is_cs_token (toString q) = false)
    (hfmt : is_cs_token ("format=" ++ fmt) = false) :
    (video_section hw req i10 i12 fmt q).filter is_cs_token = [] := by
  have d1 : is_cs_token "-vf" = false := by decide
  have d2 : is_cs_token "-c:v" = false := by decide
  have d3 : is_cs_token "-crf" = false := by decide
  have d4 : is_cs_token "-global_quality" = false := by decide
  have d5 : is_cs_token "h264_nvenc" = false := by decide
  have d6 : is_cs_token "hevc_nvenc" = false := by decide
  have d7 : is_cs_token "h264_vaapi" = false := by decide
  have d8 : is_cs_token "hevc_vaapi" = false := by decide
  have d9 : is_cs_token "libx264" = false := by decide
  have d10 : is_cs_token "libx265" = false := by decide
  have d11 : is_cs_token "format=nv12,hwupload" = false := by decide
  have d12 : is_cs_token "format=p010,hwupload" = false := by decide
  have d13 : is_cs_token "format=yuv420p" = false := by decide
  unfold video_section
  split_ifs <;>
    simp_all [List.filter_cons, List.filter_append, intercalate_singleton]

/-- Helper: the audio-options section contains no `-map` flag. -/
theorem audio_section_no_map (ac : String) (ch : Int) (h : ac ≠ "-map") :
    count_tok (audio_section ac ch) "-map" = 0 := by
  have d1 : ("-c:a" : String) ≠ "-map" := by decide
  have d2 : ("-ac" : String) ≠ "-map" := by decide
  unfold audio_section
  split_ifs with h1 h2
  · rcases h2 with h2 | h2 <;> subst h2 <;>
      simp_all [count_tok_cons, count_tok_append, count_tok_nil] <;> decide
  · simp_all [count_tok_cons, count_tok_append, count_tok_nil]
  · rfl

/-- Helper: the audio-options section contains no subtitle-override key. -/
theorem audio_section_no_cs (ac : String) (ch : Int) (h : is_cs_token ac = false) :
    (audio_section ac ch).filter is_cs_token = [] := by
  have d1 : is_cs_token "-c:a" = false := by decide
  have d2 : is_cs_token "-ac" = false := by decide
  unfold audio_section
  split_ifs with h1 h2
  · rcases h2 with h2 | h2 <;> subst h2 <;>
      simp_all [List.filter_cons, List.filter_append] <;> decide
  · simp_all [List.filter_cons, List.filter_append]
  · rfl

/-- Helper: a successful compilation always goes through the only
returning branch of `detect_bit_depth`, so the assembled command is the
core assembly at `is_10bit = is_12bit = false` and `chosen_fmt = "nv12"`. -/
theorem build_ok_core_eq
    (input_path output_path : String) (quality : Int)
    (video_codec audio_codec : String) (audio_channels : Int)
    (subtitle_codec : String) (strip : Bool) (audio_lang subs_lang : String)
    (streams : List StreamInfo) (use_gpu debug force_8bit force_10bit : Bool)
    (nvenc_formats : List String) (hn hv : Bool) (cmd : List String)
    (hok : build_ffmpeg_cmd input_path output_path quality video_codec audio_codec
        audio_channels subtitle_codec strip audio_lang subs_lang streams use_gpu debug
        force_8bit force_10bit nvenc_formats hn hv = .ok cmd) :
    cmd = build_cmd_core input_path output_path quality video_codec audio_codec
        audio_channels strip audio_lang subs_lang streams use_gpu hn hv
        false false "nv12" := by
  unfold build_ffmpeg_cmd at hok
  cases hbd : bit_depth_step streams nvenc_formats force_8bit force_10bit with
  | exited c =>
      rw [hbd] at hok
      simp at hok
  | ok a b f =>
      rw [hbd] at hok
      simp only [Except.ok.injEq] at hok
      unfold bit_depth_step at hbd
      split at hbd
      · unfold detect_bit_depth at hbd
        split at hbd
        · injection hbd with ha hb hf
          subst ha; subst hb; subst hf
          exact hok.symm
        · simp at hbd
      · injection hbd with ha hb hf
        subst ha; subst hb; subst hf
        exact hok.symm

/-- Helper: for the three recognized container targets the table never
keeps a subtitle without recording a codec for it. -/
theorem subtitle_resolution_known_total (trg : String)
    (hext : trg = ".mp4" ∨ trg = ".mkv" ∨ trg = ".webm") (src : String) :
    subtitle_resolution trg src ≠ some none := by
  rcases hext with h | h | h <;> subst h <;>
    simp only [subtitle_resolution] <;> split_ifs <;> simp_all

/-- Helper: for the three recognized container targets, an entry is
recorded exactly for the kept subtitle streams. -/
theorem kept_entry_isSome_known (trg : String)
    (hext : trg = ".mp4" ∨ trg = ".mkv" ∨ trg = ".webm")
    (st : Bool) (al sl : String) (s : StreamInfo) :
    (kept_sub_entry trg st al sl s).isSome
      = (stream_kept trg st al sl s && (s.codec_type == "subtitle")) := by
  unfold kept_sub_entry stream_kept
  by_cases hc : survives_strip st al sl s = true ∧ s.codec_type = "subtitle"
  · rw [if_pos hc, if_pos hc]
    rcases hres : subtitle_resolution trg s.codec_name with _ | oc
    · simp [hc.2]
    · rcases oc with _ | c
      · exact absurd hres (subtitle_resolution_known_total trg hext s.codec_name)
      · simp [hc.2]
  · rw [if_neg hc, if_neg hc]
    by_cases hs : s.codec_type = "subtitle"
    · have hsv : ¬ (survives_strip st al sl s = true) := fun h => hc ⟨h, hs⟩
      simp only [Bool.not_eq_true] at hsv
      simp [hsv]
    · simp [hs]

/-- Helper: when presence of `f`'s result coincides with predicate `p`,
`filterMap` and `filter` select the same number of elements. -/
theorem filterMap_length_eq_filter {α β : Type} (f : α → Option β) (p : α → Bool)
    (l : List α) (h : ∀ a ∈ l, (f a).isSome = p a) :
    (l.filterMap f).length = (l.filter p).length := by
  induction l with
  | nil => rfl
  | cons a l ih =>
      rw [List.filterMap_cons, List.filter_cons]
      have ha := h a (List.mem_cons_self a l)
      have ihl := ih (fun x hx => h x (List.mem_cons_of_mem a hx))
      cases hfa : f a with
      | none =>
          rw [hfa] at ha
          simp only [Option.isSome_none] at ha
          rw [← ha]
          simpa using ihl
      | some b =>
          rw [hfa] at ha
          simp only [Option.isSome_some] at ha
          rw [← ha]
          simpa using ihl

/-- C3 (amended): for every compiled plan (with pairwise-distinct probed
stream indices, and user-chosen strings that do not collide with the
`-map`/`-c:s:` flag tokens), the number of `-map` directives equals the
number of kept streams, and the subtitle codec-override keys form a
contiguous 0-based range in kept order whose length is the number of kept
subtitles that received a codec decision; for `.mp4`, `.mkv` and `.webm`
targets that number equals the kept-subtitle count (for other targets the
kept subtitles receive no overrides, so the range is empty). -/
theorem c3_map_and_override_invariants
    (input_path output_path : String) (quality : Int)
    (video_codec audio_codec : String) (audio_channels : Int)
    (subtitle_codec : String) (strip : Bool) (audio_lang subs_lang : String)
    (streams : List StreamInfo) (use_gpu debug force_8bit force_10bit : Bool)
    (nvenc_formats : List String) (hn hv : Bool) (cmd : List String)
    (hnd : (streams.map StreamInfo.index).Nodup)
    (hin : input_path ≠ "-map" ∧ is_cs_token input_path = false)
    (hout : output_path ≠ "-map" ∧ is_cs_token output_path = false)
    (hac : audio_codec ≠ "-map" ∧ is_cs_token audio_codec = false)
    (hvc : pyLower video_codec ≠ "-map" ∧ is_cs_token (pyLower video_codec) = false)
    (hq : toString quality ≠ "-map" ∧ is_cs_token (toString quality) = false)
    (hok : build_ffmpeg_cmd input_path output_path quality video_codec audio_codec
        audio_channels subtitle_codec strip audio_lang subs_lang streams use_gpu debug
        force_8bit force_10bit nvenc_formats hn hv = .ok cmd) :
    count_tok cmd "-map"
      = (streams.filter
          (stream_kept (pyLower (path_suffix output_path)) strip audio_lang subs_lang)).length
    ∧ cmd.filter is_cs_token
      = (List.range
          (streams.filterMap
            (kept_sub_entry (pyLower (path_suffix output_path)) strip audio_lang
              subs_lang)).length).map (fun i => "-c:s:" ++ toString i)
    ∧ ((pyLower (path_suffix output_path) = ".mp4" ∨ pyLower (path_suffix output_path) = ".mkv"
          ∨ pyLower (path_suffix output_path) = ".webm") →
        (streams.filterMap
          (kept_sub_entry (pyLower (path_suffix output_path)) strip audio_lang
            subs_lang)).length
          = (streams.filter (fun s =>
              stream_kept (pyLower (path_suffix output_path)) strip audio_lang subs_lang s
                && (s.codec_type == "subtitle"))).length) := by
  have hcmd := build_ok_core_eq input_path output_path quality video_codec audio_codec
    audio_channels subtitle_codec strip audio_lang subs_lang streams use_gpu debug
    force_8bit force_10bit nvenc_formats hn hv cmd hok
  subst hcmd
  set trg := pyLower (path_suffix output_path) with htrg
  have hmaps : (resolve_stream_maps trg strip audio_lang subs_lang streams).1
      = (streams.filter (stream_kept trg strip audio_lang subs_lang)).map
          (fun s => "0:" ++ toString s.index) := by
    unfold resolve_stream_maps
    rw [resolve_fold_fst]
    simp
  have hkeys_sub := entries_keys_sublist trg strip audio_lang subs_lang streams
  have hkeys_nodup :
      ((streams.filterMap (kept_sub_entry trg strip audio_lang subs_lang)).map Prod.fst).Nodup :=
    List.Nodup.sublist hkeys_sub hnd
  have hsubs : (resolve_stream_maps trg strip audio_lang subs_lang streams).2
      = streams.filterMap (kept_sub_entry trg strip audio_lang subs_lang) := by
    unfold resolve_stream_maps
    rw [resolve_fold_snd]
    rw [dict_fold_disjoint _ _ hkeys_nodup (fun k _ hk => by simp at hk)]
    simp
  have hvals : ∀ p ∈ streams.filterMap (kept_sub_entry trg strip audio_lang subs_lang),
      p.2 = "mov_text" ∨ p.2 = "copy" ∨ p.2 = "webvtt" := by
    intro p hp
    rcases List.mem_filterMap.mp hp with ⟨s, hs, he⟩
    exact kept_sub_entry_val trg strip audio_lang subs_lang s p he
  refine ⟨?_, ?_, ?_⟩
  · unfold build_cmd_core
    rw [hmaps, hsubs]
    simp only [count_tok_append]
    have h1 : count_tok ["ffmpeg", "-y", "-i", input_path] "-map" = 0 := by
      simp [count_tok_cons, count_tok_nil, hin.1]
    have h3 : count_tok (audio_section audio_codec audio_channels) "-map" = 0 :=
      audio_section_no_map audio_codec audio_channels hac.1
    have h4 : count_tok (((streams.filter (stream_kept trg strip audio_lang subs_lang)).map
          (fun s => "0:" ++ toString s.index)).map (fun m => ["-map", m])).flatten "-map"
        = (streams.filter (stream_kept trg strip audio_lang subs_lang)).length := by
      rw [map_part_count]
      · exact List.length_map _ _
      · intro m hm
        rcases List.mem_map.mp hm with ⟨s, _, hms⟩
        rw [← hms]
        exact zero_colon_ne_map _
    have h5 : count_tok
        (sub_codec_args (streams.filterMap (kept_sub_entry trg strip audio_lang subs_lang)))
        "-map" = 0 := by
      apply sub_codec_args_no_map
      intro p hp
      rcases hvals p hp with h | h | h <;> rw [h] <;> decide
    have h6 : count_tok [output_path] "-map" = 0 := by
      simp [count_tok_cons, count_tok_nil, hout.1]
    rw [h1, h3, h4, h5, h6]
    split_ifs
    · rw [video_section_no_map _ _ _ _ _ _ hvc.1 hq.1 (by decide)]
      omega
    · rw [count_tok_nil]
      omega
  · unfold build_cmd_core
    rw [hmaps, hsubs]
    simp only [List.filter_append]
    have h1 : ["ffmpeg", "-y", "-i", input_path].filter is_cs_token = [] := by
      simp [List.filter_cons, hin.2, show is_cs_token "ffmpeg" = false from by decide,
        show is_cs_token "-y" = false from by decide,
        show is_cs_token "-i" = false from by decide]
    have h3 : (audio_section audio_codec audio_channels).filter is_cs_token = [] :=
      audio_section_no_cs audio_codec audio_channels hac.2
    have h4 : ((((streams.filter (stream_kept trg strip audio_lang subs_lang)).map
          (fun s => "0:" ++ toString s.index)).map (fun m => ["-map", m])).flatten).filter
          is_cs_token = [] := by
      apply map_part_no_cs
      intro m hm
      rcases List.mem_map.mp hm with ⟨s, _, hms⟩
      rw [← hms]
      exact is_cs_token_zero_colon _
    have h5 : (sub_codec_args
          (streams.filterMap (kept_sub_entry trg strip audio_lang subs_lang))).filter
          is_cs_token
        = (List.range
            (streams.filterMap (kept_sub_entry trg strip audio_lang subs_lang)).length).map
            (fun i => "-c:s:" ++ toString i) :=
      sub_codec_args_filter_cs _ hkeys_nodup
        (fun p hp => by rcases hvals p hp with h | h | h <;> rw [h] <;> decide)
    have h6 : [output_path].filter is_cs_token = [] := by
      simp [List.filter_cons, hout.2]
    rw [h1, h3, h4, h5, h6]
    split_ifs
    · rw [video_section_no_cs _ _ _ _ _ _ hvc.2 hq.2 (by decide)]
      simp
    · simp
  · intro hext
    exact filterMap_length_eq_filter _ _ streams
      (fun s _ => kept_entry_isSome_known trg hext strip audio_lang subs_lang s)

/-- C3 witness: the invariants theorem at a concrete six-stream `.mkv`
job (video, two audio, three subtitles, stripping to English): four kept
streams, four `-map` flags, two kept subtitles, override keys
`-c:s:0`, `-c:s:1`. -/
theorem c3_invariants_witness :
    count_tok ["ffmpeg", "-y", "-i", "d/movie.mp4", "-vf", "format=nv12,hwupload",
        "-c:v", "hevc_vaapi", "-global_quality", "18", "-c:a", "aac", "-ac", "2",
        "-map", "0:0", "-map", "0:1", "-map", "0:3", "-map", "0:5",
        "-c:s:0", "copy", "-c:s:1", "copy", "d/_tmp_movie.mkv"] "-map"
      = (([⟨0, "video", "h264", "und"⟩, ⟨1, "audio", "ac3", "eng"⟩,
          ⟨2, "audio", "ac3", "fre"⟩, ⟨3, "subtitle", "subrip", "eng"⟩,
          ⟨4, "subtitle", "subrip", "fre"⟩, ⟨5, "subtitle", "ass", "eng"⟩] :
            List StreamInfo).filter
          (stream_kept (pyLower (path_suffix "d/_tmp_movie.mkv")) true "eng" "eng")).length
    ∧ (["ffmpeg", "-y", "-i", "d/movie.mp4", "-vf", "format=nv12,hwupload",
        "-c:v", "hevc_vaapi", "-global_quality", "18", "-c:a", "aac", "-ac", "2",
        "-map", "0:0", "-map", "0:1", "-map", "0:3", "-map", "0:5",
        "-c:s:0", "copy", "-c:s:1", "copy", "d/_tmp_movie.mkv"].filter is_cs_token)
      = (List.range
          (([⟨0, "video", "h264", "und"⟩, ⟨1, "audio", "ac3", "eng"⟩,
            ⟨2, "audio", "ac3", "fre"⟩, ⟨3, "subtitle", "subrip", "eng"⟩,
            ⟨4, "subtitle", "subrip", "fre"⟩, ⟨5, "subtitle", "ass", "eng"⟩] :
              List StreamInfo).filterMap
            (kept_sub_entry (pyLower (path_suffix "d/_tmp_movie.mkv")) true "eng"
              "eng")).length).map (fun i => "-c:s:" ++ toString i)
    ∧ ((pyLower (path_suffix "d/_tmp_movie.mkv") = ".mp4"
          ∨ pyLower (path_suffix "d/_tmp_movie.mkv") = ".mkv"
          ∨ pyLower (path_suffix "d/_tmp_movie.mkv") = ".webm") →
        (([⟨0, "video", "h264", "und"⟩, ⟨1, "audio", "ac3", "eng"⟩,
          ⟨2, "audio", "ac3", "fre"⟩, ⟨3, "subtitle", "subrip", "eng"⟩,
          ⟨4, "subtitle", "subrip", "fre"⟩, ⟨5, "subtitle", "ass", "eng"⟩] :
            List StreamInfo).filterMap
          (kept_sub_entry (pyLower (path_suffix "d/_tmp_movie.mkv")) true "eng"
            "eng")).length
          = (([⟨0, "video", "h264", "und"⟩, ⟨1, "audio", "ac3", "eng"⟩,
            ⟨2, "audio", "ac3", "fre"⟩, ⟨3, "subtitle", "subrip", "eng"⟩,
            ⟨4, "subtitle", "subrip", "fre"⟩, ⟨5, "subtitle", "ass", "eng"⟩] :
              List StreamInfo).filter (fun s =>
              stream_kept (pyLower (path_suffix "d/_tmp_movie.mkv")) true "eng" "eng" s
                && (s.codec_type == "subtitle"))).length) :=
  c3_map_and_override_invariants "d/movie.mp4" "d/_tmp_movie.mkv" 18 "hevc" "aac" 2
    "copy" true "eng" "eng"
    [⟨0, "video", "h264", "und"⟩, ⟨1, "audio", "ac3", "eng"⟩,
      ⟨2, "audio", "ac3", "fre"⟩, ⟨3, "subtitle", "subrip", "eng"⟩,
      ⟨4, "subtitle", "subrip", "fre"⟩, ⟨5, "subtitle", "ass", "eng"⟩]
    true false true false [] false true
    ["ffmpeg", "-y", "-i", "d/movie.mp4", "-vf", "format=nv12,hwupload",
      "-c:v", "hevc_vaapi", "-global_quality", "18", "-c:a", "aac", "-ac", "2",
      "-map", "0:0", "-map", "0:1", "-map", "0:3", "-map", "0:5",
      "-c:s:0", "copy", "-c:s:1", "copy", "d/_tmp_movie.mkv"]
    (by decide) ⟨by decide, by decide⟩ ⟨by decide, by decide⟩ ⟨by decide, by decide⟩
    ⟨by decide, by decide⟩ ⟨by decide, by decide⟩ rfl

/-- C5 (amended): backend selection is by tool presence only and performs
no capability self-test — when a video transcode of the H.264 family is
requested, a present vendor-A tool always yields the vendor-A encoder in
the plan, the vendor-B encoder is chosen only when vendor-A tooling is
absent and vendor-B tooling present, and the software encoder otherwise. -/
theorem c5_presence_only_backend_selection
    (input_path output_path : String) (quality : Int) (audio_codec : String)
    (audio_channels : Int) (subtitle_codec : String) (strip : Bool)
    (audio_lang subs_lang : String) (streams : List StreamInfo)
    (debug force_8bit force_10bit : Bool) (nvenc_formats : List String)
    (hn hv : Bool) (cmd : List String)
    (hvid : (streams.find? (fun s => s.codec_type = "video")).isSome)
    (hok : build_ffmpeg_cmd input_path output_path quality "h264" audio_codec
        audio_channels subtitle_codec strip audio_lang subs_lang streams true debug
        force_8bit force_10bit nvenc_formats hn hv = .ok cmd) :
    (hn = true → "h264_nvenc" ∈ cmd)
    ∧ (hn = false → hv = true → "h264_vaapi" ∈ cmd)
    ∧ (hn = false → hv = false → "libx264" ∈ cmd) := by
  have hcmd := build_ok_core_eq input_path output_path quality "h264" audio_codec
    audio_channels subtitle_codec strip audio_lang subs_lang streams true debug
    force_8bit force_10bit nvenc_formats hn hv cmd hok
  subst hcmd
  refine ⟨?_, ?_, ?_⟩
  · intro h
    subst h
    unfold build_cmd_core
    rw [if_pos ⟨by decide, hvid⟩]
    rw [show video_section (select_hw_type true true hv) (pyLower "h264") false false
        "nv12" quality = ["-vf", "format=nv12", "-c:v", "h264_nvenc"] from rfl]
    simp
  · intro h1 h2
    subst h1; subst h2
    unfold build_cmd_core
    rw [if_pos ⟨by decide, hvid⟩]
    rw [show video_section (select_hw_type true false true) (pyLower "h264") false false
        "nv12" quality
        = ["-vf", "format=nv12,hwupload", "-c:v", "h264_vaapi"]
          ++ (if 0 < quality then ["-global_quality", toString quality] else []) from rfl]
    simp
  · intro h1 h2
    subst h1; subst h2
    unfold build_cmd_core
    rw [if_pos ⟨by decide, hvid⟩]
    rw [show video_section (select_hw_type true false false) (pyLower "h264") false false
        "nv12" quality
        = ["-c:v", "libx264"]
          ++ (if 0 < quality then ["-crf", toString quality] else []) from rfl]
    simp

/-- C5 witness: the presence-only selection theorem at a concrete job with
the vendor-A tool present — the plan uses the vendor-A H.264 encoder. -/
theorem c5_presence_witness :
    (true = true → "h264_nvenc" ∈ ["ffmpeg", "-y", "-i", "movie.mkv", "-vf",
        "format=nv12", "-c:v", "h264_nvenc", "-map", "0:0", "_tmp_movie.mkv"])
    ∧ (true = false → false = true → "h264_vaapi" ∈ ["ffmpeg", "-y", "-i", "movie.mkv",
        "-vf", "format=nv12", "-c:v", "h264_nvenc", "-map", "0:0", "_tmp_movie.mkv"])
    ∧ (true = false → false = false → "libx264" ∈ ["ffmpeg", "-y", "-i", "movie.mkv",
        "-vf", "format=nv12", "-c:v", "h264_nvenc", "-map", "0:0", "_tmp_movie.mkv"]) :=
  c5_presence_only_backend_selection "movie.mkv" "_tmp_movie.mkv" 20 "copy" 0 "copy"
    false "eng" "eng" [⟨0, "video", "h264", "und"⟩] false true false [] true false
    ["ffmpeg", "-y", "-i", "movie.mkv", "-vf", "format=nv12", "-c:v", "h264_nvenc",
      "-map", "0:0", "_tmp_movie.mkv"]
    (by decide) rfl

/-- C3 counterexample: an `.avi` target with one surviving subtitle
compiles to a plan with one kept subtitle stream but zero `-c:s:`
override keys, so the override-key range does not have length equal to
the kept-subtitle count. -/
theorem c3_avi_kept_subtitle_without_override :
    build_ffmpeg_cmd "show.mkv" "_tmp_show.avi" 0 "copy" "copy" 0 "copy" false
        "eng" "eng" [⟨0, "subtitle", "subrip", "eng"⟩] true false false false [] false false
      = Except.ok ["ffmpeg", "-y", "-i", "show.mkv", "-map", "0:0", "_tmp_show.avi"]
    ∧ (["ffmpeg", "-y", "-i", "show.mkv", "-map", "0:0", "_tmp_show.avi"].filter
        is_cs_token) = []
    ∧ (([⟨0, "subtitle", "subrip", "eng"⟩] : List StreamInfo).filter (fun s =>
        stream_kept (pyLower (path_suffix "_tmp_show.avi")) false "eng" "eng" s
          && (s.codec_type == "subtitle"))).length = 1 :=
  ⟨rfl, by decide, by decide⟩
